import Mathlib

/-!
# Verification of `pyuoi.linear_model` stability-selection utilities

Shallow embedding of `pyuoi/linear_model/utils.py` (the functions
`stability_selection_to_threshold` and `intersection`) plus a spec-level
model of the Poisson solver's fitted-state guard (the solver module
`poisson.py` is exercised only through its tests here).

Python floats are modelled as rationals (all arithmetic the claims touch is
exact in binary floating point at the relevant inputs), Python/NumPy integers
as `ℤ`, NumPy arrays as lists, and raised exceptions as `Except.error`
carrying the exception message.
-/

instance {ε α : Type} [DecidableEq ε] [DecidableEq α] : DecidableEq (Except ε α) :=
  fun x y =>
    match x, y with
    | .ok a, .ok b => decidable_of_iff (a = b) (by simp)
    | .error a, .error b => decidable_of_iff (a = b) (by simp)
    | .ok _, .error _ => isFalse (fun h => Except.noConfusion h)
    | .error _, .ok _ => isFalse (fun h => Except.noConfusion h)

/-- A Python scalar as it can appear inside a `stability_selection` list:
a `float`, an `int`, a `bool` (which `isinstance`-checks as an `int` in
Python), or any other object. -/
inductive PyScalar
  | f (x : ℚ)
  | i (z : ℤ)
  | b (v : Bool)
  | o
deriving DecidableEq

/-- `isinstance(·, float)` for a scalar. -/
def PyScalar.isFloatI : PyScalar → Bool
  | .f _ => true
  | _ => false

/-- `isinstance(·, int)` for a scalar; Python `bool` is a subclass of `int`. -/
def PyScalar.isIntI : PyScalar → Bool
  | .i _ => true
  | .b _ => true
  | _ => false

/-- Numeric value of a scalar, as used once a list is known homogeneous. -/
def PyScalar.toQ : PyScalar → ℚ
  | .f x => x
  | .i z => (z : ℚ)
  | .b v => if v then 1 else 0
  | .o => 0

/-- The possible runtime types of the `stability_selection` argument:
a `float`, an `int`, a `list`, a NumPy array of floating dtype, of integer
dtype, of some other dtype, or any other object. -/
inductive StabSel
  | float (x : ℚ)
  | int (z : ℤ)
  | pylist (xs : List PyScalar)
  | ndarrayF (xs : List ℚ)
  | ndarrayI (zs : List ℤ)
  | ndarrayO
  | other
deriving DecidableEq

/-- Python `int(·)` / NumPy `astype('int')` on an exact value: truncation
toward zero (stated with the executable `Rat.floor`). -/
def pyInt (q : ℚ) : ℤ := if 0 ≤ q then q.floor else -((-q).floor)

theorem ratFloor_eq_intFloor (q : ℚ) : q.floor = ⌊q⌋ := by
  rw [Rat.floor_def, Rat.floor_def']

theorem pyInt_of_nonneg {q : ℚ} (h : 0 ≤ q) : pyInt q = ⌊q⌋ := by
  rw [pyInt, if_pos h, ratFloor_eq_intFloor]

theorem pyInt_of_neg {q : ℚ} (h : ¬ 0 ≤ q) : pyInt q = ⌈q⌉ := by
  rw [pyInt, if_neg h, ratFloor_eq_intFloor, Int.floor_neg, neg_neg]

theorem pyInt_intCast (z : ℤ) : pyInt ((z : ℤ) : ℚ) = z := by
  by_cases h : (0 : ℚ) ≤ (z : ℚ)
  · rw [pyInt_of_nonneg h, Int.floor_intCast]
  · rw [pyInt_of_neg h, Int.ceil_intCast]

/-- The type-dispatch stage of `stability_selection_to_threshold`: the value
of the local `selection_thresholds` (still float-valued in the fraction
branches) just before the final `astype('int')`, or the `ValueError` message
raised by the dispatch. -/
def rawThresholds (stability_selection : StabSel) (n_boots : ℤ) :
    Except String (List ℚ) :=
  match stability_selection with
  -- single float, indicating proportion of bootstraps
  | .float x => .ok [((pyInt (x * (n_boots : ℚ)) : ℤ) : ℚ)]
  -- single int, indicating number of bootstraps
  | .int z => .ok [(z : ℚ)]
  -- list, to be converted into numpy array
  | .pylist xs =>
      if xs.all PyScalar.isFloatI then
        .ok (xs.map fun v => (n_boots : ℚ) * v.toQ)
      else if xs.all PyScalar.isIntI then
        .ok (xs.map PyScalar.toQ)
      else
        .error "Stability selection list must consist of floats or ints."
  -- numpy array
  | .ndarrayF xs => .ok (xs.map fun x => (n_boots : ℚ) * x)
  | .ndarrayI zs => .ok (zs.map fun z => (z : ℚ))
  | .ndarrayO => .error "Stability selection array must consist of floats or ints."
  | .other => .error "Stability selection must be a valid float, int or array."

/-- The message of the final bounds `ValueError`. -/
def boundsMsg : String :=
  "Stability selection thresholds must be within the correct bounds."

/-- `stability_selection_to_threshold(stability_selection, n_boots)`:
type dispatch, then `astype('int')`, then the bounds check
`all(thresholds <= n_boots) and all(thresholds > 1)`. -/
def stability_selection_to_threshold (stability_selection : StabSel)
    (n_boots : ℤ) : Except String (List ℤ) :=
  match rawThresholds stability_selection n_boots with
  | .error e => .error e
  | .ok raw =>
      let selection_thresholds := raw.map pyInt
      if selection_thresholds.all (fun t => t ≤ n_boots) &&
         selection_thresholds.all (fun t => 1 < t) then
        .ok selection_thresholds
      else
        .error boundsMsg

theorem pyIntMul_9_10 : pyInt ((9 : ℚ)/10 * ((10 : ℤ) : ℚ)) = 9 := by
  have h : ((9 : ℚ)/10 * ((10 : ℤ) : ℚ)) = ((9 : ℤ) : ℚ) := by push_cast; norm_num
  rw [h, pyInt_intCast]

theorem pyIntMul_10_half : pyInt (((10 : ℤ) : ℚ) * ((1 : ℚ)/2)) = 5 := by
  have h : (((10 : ℤ) : ℚ) * ((1 : ℚ)/2)) = ((5 : ℤ) : ℚ) := by push_cast; norm_num
  rw [h, pyInt_intCast]

theorem pyIntMul_10_9tenths : pyInt (((10 : ℤ) : ℚ) * ((9 : ℚ)/10)) = 9 := by
  have h : (((10 : ℤ) : ℚ) * ((9 : ℚ)/10)) = ((9 : ℤ) : ℚ) := by push_cast; norm_num
  rw [h, pyInt_intCast]

example : stability_selection_to_threshold (.float (9/10)) 10 = .ok [9] := by
  simp only [stability_selection_to_threshold, rawThresholds, pyIntMul_9_10, pyInt_intCast]
  decide

example : stability_selection_to_threshold (.pylist [.f (1/2), .f (9/10)]) 10 = .ok [5, 9] := by
  simp only [stability_selection_to_threshold, rawThresholds, List.all_cons, List.all_nil,
    PyScalar.isFloatI, Bool.and_true, Bool.and_self, List.map_cons, List.map_nil,
    if_true, PyScalar.toQ, pyIntMul_10_half, pyIntMul_10_9tenths, pyInt_intCast]
  decide
example : stability_selection_to_threshold (.int 1) 10 = .error boundsMsg := by decide
example : stability_selection_to_threshold (.int 11) 10 = .error boundsMsg := by decide
example : stability_selection_to_threshold (.pylist []) 7 = .ok [] := by decide

/-!
## `intersection(coefs, selection_thresholds)`

`coefs` has shape (n_bootstraps, n_lambdas, n_features) and is modelled as a
nested list; `selection_thresholds` is a 1-D integer sequence.

The source binds `n_selection_thresholds = selection_thresholds` — the
sequence itself, not its length — and then uses that variable as the leading
entry of the shape passed to `np.zeros` and (multiplied elementwise by
`n_reg_params`) of the shape passed to `np.reshape`.  NumPy converts a
sequence appearing as one entry of a shape tuple to an integer only when it
has exactly one element (legacy scalar conversion of size-1 arrays, the most
permissive semantics NumPy has had); any other length raises `TypeError`.
-/

/-- NumPy's conversion of a whole integer sequence used as a single entry of
a shape tuple: a one-element sequence yields its value (legacy size-1 scalar
conversion; negative values are rejected as dimensions), anything else
raises `TypeError`. -/
def seqAsDim (ts : List ℤ) : Except String ℕ :=
  match ts with
  | [t] =>
      if t < 0 then .error "ValueError: negative dimensions are not allowed"
      else .ok t.toNat
  | _ => .error "TypeError: only integer scalar arrays can be converted to a scalar index"

/-- `np.count_nonzero(coefs, axis=0)` at entry (lambda, feature): the number
of bootstraps whose coefficient there is nonzero. -/
def countNonzeroAxis0 (coefs : List (List (List ℚ))) (lam feat : ℕ) : ℕ :=
  coefs.countP (fun boot => (boot.getD lam []).getD feat 0 != 0)

/-- One lambda-row of `np.count_nonzero(coefs, axis=0) >= threshold`:
entry `feat` is `True` iff the feature is nonzero in at least `threshold`
bootstraps at that lambda.  This is the support computed inside the
per-threshold loop of `intersection`. -/
def supportRow (coefs : List (List (List ℚ))) (threshold : ℤ) (lam nFeat : ℕ) :
    List Bool :=
  (List.range nFeat).map fun feat =>
    decide (threshold ≤ (countNonzeroAxis0 coefs lam feat : ℤ))

/-- The result of squeezing a 2-D boolean array of row length `nFeat`:
`np.squeeze` drops every axis of size 1. -/
inductive NpOut
  | scalar (b : Bool)
  | vec (v : List Bool)
  | mat (m : List (List Bool))
deriving DecidableEq

/-- `np.squeeze` on a 2-D boolean array with `nFeat` columns. -/
def npSqueeze (rows : List (List Bool)) (nFeat : ℕ) : NpOut :=
  match rows, nFeat with
  | [r], 1 => .scalar (r.getD 0 false)
  | [r], _ => .vec r
  | _, 1 => .vec (rows.map fun r => r.getD 0 false)
  | _, _ => .mat rows

/-- `intersection(coefs, selection_thresholds)` as written in the source:
`n_selection_thresholds` is bound to the sequence itself, so the `np.zeros`
shape entry and the `np.reshape` row count are sequence-valued and go
through `seqAsDim`; the loop `supports[thresh_idx, ...] = count_nonzero >=
threshold` only ever fills the first `len(selection_thresholds)` slabs of
the buffer. -/
def intersection (coefs : List (List (List ℚ)))
    (selection_thresholds : List ℤ) : Except String NpOut :=
  let n_reg_params := (coefs.headD []).length
  let n_features := ((coefs.headD []).headD []).length
  match seqAsDim selection_thresholds with
  | .error e => .error e
  | .ok dim0 =>
    -- supports = np.zeros((n_selection_thresholds, n_reg_params, n_features))
    let supports0 : List (List (List Bool)) :=
      (List.range dim0).map fun _ =>
        (List.range n_reg_params).map fun _ =>
          (List.range n_features).map fun _ => false
    -- for thresh_idx, threshold in enumerate(selection_thresholds):
    --     supports[thresh_idx, ...] = np.count_nonzero(coefs, axis=0) >= threshold
    match
      selection_thresholds.enum.foldlM
        (fun (s : List (List (List Bool))) p =>
          if p.1 < s.length then
            Except.ok (s.set p.1
              ((List.range n_reg_params).map fun lam =>
                supportRow coefs p.2 lam n_features))
          else
            Except.error "IndexError: index is out of bounds for axis 0")
        supports0 with
    | .error e => .error e
    | .ok supports =>
      -- supports = np.squeeze(np.reshape(supports,
      --     (n_selection_thresholds * n_reg_params, n_features)))
      match seqAsDim (selection_thresholds.map fun t => t * (n_reg_params : ℤ)) with
      | .error e => .error e
      | .ok rRows =>
        if dim0 * n_reg_params * n_features = rRows * n_features then
          .ok (npSqueeze supports.flatten n_features)
        else
          .error "ValueError: cannot reshape array"

/-- The (5 bootstraps, 1 lambda, 3 features) tensor of the specification's
`SupportIntersector` example: feature 0 is nonzero in all 5 bootstraps,
feature 1 in exactly 3, feature 2 in none. -/
def coefs513 : List (List (List ℚ)) :=
  [[[1, 1, 0]], [[1, 1, 0]], [[1, 1, 0]], [[1, 0, 0]], [[1, 0, 0]]]

example : countNonzeroAxis0 coefs513 0 0 = 5 := by decide
example : countNonzeroAxis0 coefs513 0 1 = 3 := by decide
example : countNonzeroAxis0 coefs513 0 2 = 0 := by decide
example : supportRow coefs513 4 0 3 = [true, false, false] := by decide
example : intersection coefs513 [4] =
    .ok (.mat [[true, false, false], [false, false, false],
               [false, false, false], [false, false, false]]) := by decide
example : intersection coefs513 [4, 5] =
    .error "TypeError: only integer scalar arrays can be converted to a scalar index" := by
  decide

/-!
## Heap-level model (for the read-only / no-mutation contract)

NumPy arrays live in a store addressed by natural-number references.  The
only in-place array write in either source function is
`supports[thresh_idx, ...] = ...` inside `intersection`, on the buffer the
function itself allocates; `stability_selection_to_threshold` only builds
new arrays (`n_boots * arr` and `astype` both allocate).
-/

/-- A stored NumPy array: a 3-D float tensor, a 3-D boolean tensor, or a
1-D float or integer array. -/
inductive HVal
  | qarr3 (t : List (List (List ℚ)))
  | barr3 (t : List (List (List Bool)))
  | qarr1 (xs : List ℚ)
  | zarr1 (zs : List ℤ)
deriving DecidableEq

/-- The array store. -/
abbrev Heap := ℕ → Option HVal

/-- Store update at one reference. -/
def hupdate (h : Heap) (r : ℕ) (v : HVal) : Heap :=
  fun r' => if r' = r then some v else h r'

/-- The in-place loop of `intersection`: for each `(thresh_idx, threshold)`
write slab `thresh_idx` of the boolean buffer at reference `r`
(`supports[thresh_idx, ...] = np.count_nonzero(coefs, axis=0) >= threshold`);
an index beyond the buffer's leading dimension raises `IndexError`. -/
def loopWrites (coefs : List (List (List ℚ))) (L F : ℕ) (r : ℕ) :
    List (ℕ × ℤ) → Heap → Except String Heap
  | [], h => .ok h
  | (ti, t) :: rest, h =>
    match h r with
    | some (.barr3 s) =>
      if ti < s.length then
        loopWrites coefs L F r rest
          (hupdate h r (.barr3 (s.set ti
            ((List.range L).map fun lam => supportRow coefs t lam F))))
      else .error "IndexError: index is out of bounds for axis 0"
    | _ => .error "TypeError: supports is not a boolean tensor"

/-- Heap-level `intersection`: reads `coefs` (never written) from `coefsRef`,
allocates the `supports` buffer at the fresh reference `freshRef`, runs the
in-place loop there, and squeezes the reshaped result. -/
def intersectionH (h : Heap) (coefsRef freshRef : ℕ)
    (selection_thresholds : List ℤ) : Except String (Heap × NpOut) :=
  match h coefsRef with
  | some (.qarr3 coefs) =>
    let n_reg_params := (coefs.headD []).length
    let n_features := ((coefs.headD []).headD []).length
    match seqAsDim selection_thresholds with
    | .error e => .error e
    | .ok dim0 =>
      let h1 := hupdate h freshRef (.barr3
        ((List.range dim0).map fun _ =>
          (List.range n_reg_params).map fun _ =>
            (List.range n_features).map fun _ => false))
      match loopWrites coefs n_reg_params n_features freshRef
          selection_thresholds.enum h1 with
      | .error e => .error e
      | .ok h2 =>
        match h2 freshRef with
        | some (.barr3 supports) =>
          match seqAsDim (selection_thresholds.map fun t =>
              t * (n_reg_params : ℤ)) with
          | .error e => .error e
          | .ok rRows =>
            if dim0 * n_reg_params * n_features = rRows * n_features then
              .ok (h2, npSqueeze supports.flatten n_features)
            else .error "ValueError: cannot reshape array"
        | _ => .error "TypeError: supports is not a boolean tensor"
  | _ => .error "TypeError: coefs is not a float tensor"

/-- Heap-level `stability_selection_to_threshold` for a NumPy-array input:
the input array is read from `inRef`; every array operation the source
performs on it (`n_boots * arr`, `astype('int')`) allocates, so the result
is written to the fresh reference `freshRef` and nothing else is touched. -/
def stabilityToThresholdH (h : Heap) (inRef freshRef : ℕ) (n_boots : ℤ) :
    Except String (Heap × ℕ) :=
  match h inRef with
  | some (.qarr1 xs) =>
    match stability_selection_to_threshold (.ndarrayF xs) n_boots with
    | .ok ts => .ok (hupdate h freshRef (.zarr1 ts), freshRef)
    | .error e => .error e
  | some (.zarr1 zs) =>
    match stability_selection_to_threshold (.ndarrayI zs) n_boots with
    | .ok ts => .ok (hupdate h freshRef (.zarr1 ts), freshRef)
    | .error e => .error e
  | _ => .error "Stability selection must be a valid float, int or array."

/-- The heap after a successful heap-level `intersection` run
(the input heap if the call raised). -/
def heapAfterI (e : Except String (Heap × NpOut)) (d : Heap) : Heap :=
  match e with
  | .ok (h, _) => h
  | .error _ => d

/-- The heap after a successful heap-level threshold-resolution run
(the input heap if the call raised). -/
def heapAfterT (e : Except String (Heap × ℕ)) (d : Heap) : Heap :=
  match e with
  | .ok (h, _) => h
  | .error _ => d

/-!
## Spec-level model of the Poisson solver's fitted-state guard
-/

/-- Modelled from the spec: the `PenalizedPoissonSolver` of `poisson.py` is
not under `src/` (only its tests are).  Per the spec it is a state machine
`Unfit → Fitting → Fitted` whose fitted state carries `coef_` and
`intercept_`. -/
structure PoissonSolver where
  fitted : Bool
  coef_ : List ℚ
  intercept_ : ℚ

/-- The linear predictor `eta = X @ coef_ + intercept_` for one sample row. -/
def linPred (coef : List ℚ) (intercept : ℚ) (row : List ℚ) : ℚ :=
  (List.zipWith (· * ·) row coef).sum + intercept

/-- Modelled from the spec: `predict(X)` "requires state Fitted, else fails
with a 'not fitted' condition; returns round(exp(X beta + intercept))".  The
not-fitted guard is modelled exactly; the fitted branch's value (a
transcendental of the linear predictor, then rounded) is represented by the
exactly-computable linear predictors, which the claim about the guard never
inspects. -/
def PoissonSolver.predict (m : PoissonSolver) (X : List (List ℚ)) :
    Except String (List ℚ) :=
  if m.fitted then .ok (X.map (linPred m.coef_ m.intercept_))
  else .error "NotFittedError"

/-- Modelled from the spec: `predict_mean(X)` "requires Fitted; returns
exp(X beta + intercept)".  Guard modelled exactly; fitted branch represented
by the linear predictors as in `PoissonSolver.predict`. -/
def PoissonSolver.predict_mean (m : PoissonSolver) (X : List (List ℚ)) :
    Except String (List ℚ) :=
  if m.fitted then .ok (X.map (linPred m.coef_ m.intercept_))
  else .error "NotFittedError"

example : (PoissonSolver.mk false [1, 0, 0] 0).predict [[1, 2, 3]] =
    .error "NotFittedError" := by decide

/-!
## Claim theorems
-/

theorem pyInt_eq_floor_of_one_lt {q : ℚ} (h : 1 < pyInt q) : pyInt q = ⌊q⌋ := by
  by_cases h0 : 0 ≤ q
  · exact pyInt_of_nonneg h0
  · exfalso
    rw [pyInt_of_neg h0] at h
    have : ⌈q⌉ ≤ (0 : ℤ) := Int.ceil_le.mpr (by push_cast; exact le_of_not_le h0)
    omega

/-- C1: the claim says `intersection` marks a feature as in-support exactly
when its coefficient is nonzero in at least `t` bootstraps and that
`intersection(tensor, [4])` on the (5, 1, 3) example returns exactly
`[True, False, False]`.  The code instead binds `n_selection_thresholds` to
the threshold sequence itself, so the supports buffer gets leading dimension
4 (the threshold value) and the call returns a 4 × 3 array whose three
trailing rows are spurious all-False supports. -/
theorem intersection_example_returns_4x3 :
    intersection coefs513 [4] =
      .ok (.mat [[true, false, false], [false, false, false],
                 [false, false, false], [false, false, false]]) ∧
    intersection coefs513 [4] ≠ .ok (.vec [true, false, false]) := by
  decide

/-- C2: the claim says `intersection` returns normally (a squeezed boolean
array) for every threshold sequence, including length ≥ 2.  In the code the
shape entry passed to `np.zeros` is the threshold sequence itself, and a
sequence of length ≥ 2 cannot be converted to an integer dimension, so every
such call raises `TypeError` instead of returning. -/
theorem intersection_multi_threshold_raises :
    (∀ (coefs : List (List (List ℚ))) (t1 t2 : ℤ) (rest : List ℤ),
        intersection coefs (t1 :: t2 :: rest) =
          .error "TypeError: only integer scalar arrays can be converted to a scalar index") ∧
    intersection coefs513 [4, 5] =
      .error "TypeError: only integer scalar arrays can be converted to a scalar index" := by
  exact ⟨fun coefs t1 t2 rest => rfl, by decide⟩

/-- C7: on a Poisson solver on which fit has not completed, `predict` and
`predict_mean` both fail with the not-fitted error instead of returning a
default value. -/
theorem poisson_unfit_predict_raises (m : PoissonSolver) (X : List (List ℚ))
    (hm : m.fitted = false) :
    m.predict X = .error "NotFittedError" ∧
    m.predict_mean X = .error "NotFittedError" := by
  rw [PoissonSolver.predict, PoissonSolver.predict_mean, hm]
  exact ⟨rfl, rfl⟩

theorem poisson_unfit_predict_raises_witness :
    (PoissonSolver.mk false [1, 0, 0] 0).predict [[1, 2, 3]] = .error "NotFittedError" ∧
    (PoissonSolver.mk false [1, 0, 0] 0).predict_mean [[1, 2, 3]] = .error "NotFittedError" :=
  poisson_unfit_predict_raises (PoissonSolver.mk false [1, 0, 0] 0) [[1, 2, 3]] rfl

/-- C8: an empty list vacuously passes the all-floats check and the vacuous
bounds check, so `stability_selection_to_threshold([], n_boots)` returns an
empty threshold sequence and raises nothing, for every `n_boots`. -/
theorem stability_threshold_empty_list (n_boots : ℤ) :
    stability_selection_to_threshold (.pylist []) n_boots = .ok [] := rfl

/-- C9: a scalar float is classified only by its type, never range-checked
against (0,1): the float `1.0` is scaled like any fraction and, for every
`n_boots ≥ 2`, the call returns `[n_boots]` instead of raising. -/
theorem stability_threshold_accepts_float_one (n_boots : ℤ) (hn : 2 ≤ n_boots) :
    stability_selection_to_threshold (.float 1) n_boots = .ok [n_boots] := by
  have h1 : (1 : ℚ) * ((n_boots : ℤ) : ℚ) = ((n_boots : ℤ) : ℚ) := one_mul _
  simp only [stability_selection_to_threshold, rawThresholds, h1, pyInt_intCast,
    List.map_cons, List.map_nil]
  have hc : ((List.all [n_boots] fun t => decide (t ≤ n_boots)) &&
      List.all [n_boots] fun t => decide (1 < t)) = true := by
    simp only [List.all_cons, List.all_nil, Bool.and_true, Bool.and_eq_true,
      decide_eq_true_eq]
    omega
  rw [if_pos hc]

theorem stability_threshold_accepts_float_one_witness :
    stability_selection_to_threshold (.float 1) 10 = .ok [10] :=
  stability_threshold_accepts_float_one 10 (by decide)

/-- C10: the per-threshold support computed inside `intersection`
(`count_nonzero(coefs, axis=0) >= threshold`) is antitone in the threshold:
if a feature is in the support for threshold `t2` then it is in the support
for every `t1 ≤ t2`. -/
theorem support_antitone_in_threshold (coefs : List (List (List ℚ)))
    (lam nF feat : ℕ) (t1 t2 : ℤ) (h12 : t1 ≤ t2)
    (h2 : (supportRow coefs t2 lam nF).getD feat false = true) :
    (supportRow coefs t1 lam nF).getD feat false = true := by
  by_cases hf : feat < nF
  · rw [supportRow, List.getD_eq_getElem?_getD, List.getElem?_map,
      show (List.range nF)[feat]? = some feat by simp [List.getElem?_range, hf]] at h2 ⊢
    simp at h2 ⊢
    omega
  · exfalso
    rw [supportRow, List.getD_eq_getElem?_getD, List.getElem?_map,
      show (List.range nF)[feat]? = none from
        List.getElem?_eq_none (by simp only [List.length_range]; omega)] at h2
    simp at h2

theorem support_antitone_in_threshold_witness :
    (supportRow coefs513 3 0 3).getD 0 false = true :=
  support_antitone_in_threshold coefs513 0 3 0 3 4 (by decide) (by decide)

/-- C3: a single float `f` resolves to the one-element sequence
`[floor(f * n_boots)]` and a list of floats to the elementwise truncation of
`n_boots` times each entry (equal to the floor on every value the bounds
check lets through); concretely, `0.9` with 10 bootstraps gives `[9]` and
`[0.5, 0.9]` gives `[5, 9]`. -/
theorem stability_threshold_fraction_scaling :
    (∀ (f : ℚ) (n : ℤ) (ts : List ℤ),
        stability_selection_to_threshold (.float f) n = .ok ts →
        ts = [⌊f * (n : ℚ)⌋]) ∧
    (∀ (fs : List ℚ) (n : ℤ) (ts : List ℤ),
        stability_selection_to_threshold (.pylist (fs.map PyScalar.f)) n = .ok ts →
        ts = fs.map fun x => ⌊(n : ℚ) * x⌋) ∧
    stability_selection_to_threshold (.float (9/10)) 10 = .ok [9] ∧
    stability_selection_to_threshold (.pylist [.f (1/2), .f (9/10)]) 10 = .ok [5, 9] := by
  refine ⟨?_, ?_, ?_, ?_⟩
  · intro f n ts hok
    simp only [stability_selection_to_threshold, rawThresholds, List.map_cons,
      List.map_nil, pyInt_intCast] at hok
    split at hok
    · rename_i hcond
      cases hok
      simp only [List.all_cons, List.all_nil, Bool.and_true, Bool.and_eq_true,
        decide_eq_true_eq] at hcond
      rw [pyInt_eq_floor_of_one_lt hcond.2]
    · cases hok
  · intro fs n ts hok
    have hfl : (fs.map PyScalar.f).all PyScalar.isFloatI = true := by
      simp [List.all_map, Function.comp_def, PyScalar.isFloatI]
    simp only [stability_selection_to_threshold, rawThresholds, hfl, if_true,
      List.map_map] at hok
    split at hok
    · rename_i hcond
      cases hok
      refine List.map_congr_left ?_
      intro x hx
      simp only [Bool.and_eq_true, List.all_eq_true, decide_eq_true_eq] at hcond
      have hone := hcond.2 _ (List.mem_map_of_mem _ hx)
      simp only [Function.comp_apply, PyScalar.toQ] at hone ⊢
      rw [pyInt_eq_floor_of_one_lt hone]
    · cases hok
  · simp only [stability_selection_to_threshold, rawThresholds, pyIntMul_9_10,
      pyInt_intCast]
    decide
  · simp only [stability_selection_to_threshold, rawThresholds, List.all_cons,
      List.all_nil, PyScalar.isFloatI, Bool.and_true, Bool.and_self, List.map_cons,
      List.map_nil, if_true, PyScalar.toQ, pyIntMul_10_half, pyIntMul_10_9tenths,
      pyInt_intCast]
    decide

theorem stability_threshold_fraction_scaling_witness :
    ([9] : List ℤ) = [⌊(9/10 : ℚ) * ((10 : ℤ) : ℚ)⌋] :=
  stability_threshold_fraction_scaling.1 (9/10) 10 [9] (by
    simp only [stability_selection_to_threshold, rawThresholds, pyIntMul_9_10,
      pyInt_intCast]
    decide)

/-- C4: once type conversion has produced thresholds, the function raises
the bounds `ValueError` exactly when some threshold violates
`1 < threshold ≤ n_boots`, and otherwise returns the converted thresholds
unchanged (no clamping); the scalar inputs 1 and 11 with 10 bootstraps both
raise it. -/
theorem stability_threshold_bounds_iff (s : StabSel) (n : ℤ) (raw : List ℚ)
    (h : rawThresholds s n = .ok raw) :
    (stability_selection_to_threshold s n = .error boundsMsg ↔
      ¬ ∀ t ∈ raw.map pyInt, 1 < t ∧ t ≤ n) ∧
    ((∀ t ∈ raw.map pyInt, 1 < t ∧ t ≤ n) →
      stability_selection_to_threshold s n = .ok (raw.map pyInt)) ∧
    stability_selection_to_threshold (.int 1) 10 = .error boundsMsg ∧
    stability_selection_to_threshold (.int 11) 10 = .error boundsMsg := by
  have hcond : (((raw.map pyInt).all fun t => decide (t ≤ n)) &&
      (raw.map pyInt).all fun t => decide (1 < t)) = true ↔
      ∀ t ∈ raw.map pyInt, 1 < t ∧ t ≤ n := by
    simp only [Bool.and_eq_true, List.all_eq_true, decide_eq_true_eq]
    constructor
    · exact fun hh t ht => ⟨hh.2 t ht, hh.1 t ht⟩
    · exact fun hh => ⟨fun t ht => (hh t ht).2, fun t ht => (hh t ht).1⟩
  refine ⟨?_, ?_, by decide, by decide⟩
  · simp only [stability_selection_to_threshold, h]
    by_cases hc : (((raw.map pyInt).all fun t => decide (t ≤ n)) &&
        (raw.map pyInt).all fun t => decide (1 < t)) = true
    · rw [if_pos hc]
      constructor
      · exact fun he => Except.noConfusion he
      · exact fun hy => absurd (hcond.mp hc) hy
    · rw [if_neg hc]
      constructor
      · exact fun _ hall => hc (hcond.mpr hall)
      · exact fun _ => rfl
  · intro hall
    simp only [stability_selection_to_threshold, h]
    rw [if_pos (hcond.mpr hall)]

theorem stability_threshold_bounds_iff_witness :
    stability_selection_to_threshold (.int 1) 10 = .error boundsMsg :=
  (stability_threshold_bounds_iff (.int 5) 10 [((5 : ℤ) : ℚ)] rfl).2.2.1

/-- C5: a list whose elements are not homogeneously floats (per
`isinstance`, so bools count as ints) and not homogeneously ints raises the
list `ValueError`; an array of non-float non-integer dtype raises the array
`ValueError`; anything that is not a float, int, list or array raises the
type `ValueError`. -/
theorem stability_threshold_rejects_mixed (xs : List PyScalar) (n : ℤ)
    (hf : xs.all PyScalar.isFloatI = false) (hi : xs.all PyScalar.isIntI = false) :
    stability_selection_to_threshold (.pylist xs) n =
      .error "Stability selection list must consist of floats or ints." ∧
    stability_selection_to_threshold .ndarrayO n =
      .error "Stability selection array must consist of floats or ints." ∧
    stability_selection_to_threshold .other n =
      .error "Stability selection must be a valid float, int or array." := by
  refine ⟨?_, rfl, rfl⟩
  simp [stability_selection_to_threshold, rawThresholds, hf, hi]

theorem stability_threshold_rejects_mixed_witness :
    stability_selection_to_threshold (.pylist [.f 1, .i 1]) 10 =
      .error "Stability selection list must consist of floats or ints." ∧
    stability_selection_to_threshold .ndarrayO 10 =
      .error "Stability selection array must consist of floats or ints." ∧
    stability_selection_to_threshold .other 10 =
      .error "Stability selection must be a valid float, int or array." :=
  stability_threshold_rejects_mixed [.f 1, .i 1] 10 (by decide) (by decide)

theorem hupdate_ne (h : Heap) (r' : ℕ) (v : HVal) {r : ℕ} (hr : r ≠ r') :
    hupdate h r' v r = h r := by
  simp [hupdate, hr]

theorem loopWrites_frame (coefs : List (List (List ℚ))) (L F fR : ℕ) :
    ∀ (l : List (ℕ × ℤ)) (h h' : Heap),
      loopWrites coefs L F fR l h = .ok h' → ∀ r, r ≠ fR → h' r = h r := by
  intro l
  induction l with
  | nil =>
    intro h h' hw r _
    simp only [loopWrites] at hw
    cases hw
    rfl
  | cons p rest ih =>
    obtain ⟨ti, t⟩ := p
    intro h h' hw r hr
    simp only [loopWrites] at hw
    split at hw
    · split at hw
      · have hrec := ih _ _ hw r hr
        rw [hrec, hupdate_ne _ _ _ hr]
      · cases hw
    · cases hw

theorem intersectionH_frame (h : Heap) (cRef fRef : ℕ) (ts : List ℤ)
    (h2 : Heap) (out : NpOut)
    (hw : intersectionH h cRef fRef ts = .ok (h2, out)) :
    ∀ r, r ≠ fRef → h2 r = h r := by
  intro r hr
  simp only [intersectionH] at hw
  split at hw
  · rename_i coefs hceq
    split at hw
    · cases hw
    · split at hw
      · cases hw
      · rename_i hh hloop
        split at hw
        · split at hw
          · cases hw
          · split at hw
            · cases hw
              have hfr := loopWrites_frame coefs _ _ fRef ts.enum _ _ hloop r hr
              rw [hfr, hupdate_ne _ _ _ hr]
            · cases hw
        · cases hw
  · cases hw

theorem stabilityToThresholdH_frame (h : Heap) (aRef fRef : ℕ) (n : ℤ)
    (h2 : Heap) (res : ℕ)
    (hw : stabilityToThresholdH h aRef fRef n = .ok (h2, res)) :
    ∀ r, r ≠ fRef → h2 r = h r := by
  intro r hr
  simp only [stabilityToThresholdH] at hw
  split at hw
  · split at hw
    · cases hw; rw [hupdate_ne _ _ _ hr]
    · cases hw
  · split at hw
    · cases hw; rw [hupdate_ne _ _ _ hr]
    · cases hw
  · cases hw

/-- C6: neither function mutates a caller-owned input array: a successful
heap-level `intersection` leaves every reference other than its own freshly
allocated supports buffer — in particular the coefficient tensor — exactly
as it was, and a successful heap-level `stability_selection_to_threshold`
leaves every reference other than its freshly allocated result unchanged. -/
theorem no_caller_array_mutation (h : Heap) (cRef aRef fRef r : ℕ)
    (ts : List ℤ) (n : ℤ) (hr : r ≠ fRef) :
    ((intersectionH h cRef fRef ts).isOk = true →
      heapAfterI (intersectionH h cRef fRef ts) h r = h r) ∧
    ((stabilityToThresholdH h aRef fRef n).isOk = true →
      heapAfterT (stabilityToThresholdH h aRef fRef n) h r = h r) := by
  constructor
  · intro hok
    cases he : intersectionH h cRef fRef ts with
    | error e => rw [he] at hok; simp [Except.isOk, Except.toBool] at hok
    | ok pr =>
      obtain ⟨h2, out⟩ := pr
      exact intersectionH_frame h cRef fRef ts h2 out he r hr
  · intro hok
    cases he : stabilityToThresholdH h aRef fRef n with
    | error e => rw [he] at hok; simp [Except.isOk, Except.toBool] at hok
    | ok pr =>
      obtain ⟨h2, res⟩ := pr
      exact stabilityToThresholdH_frame h aRef fRef n h2 res he r hr

/-- A concrete two-array store: the coefficient tensor at reference 0 and an
integer threshold array at reference 2; reference 1 is free. -/
def heapEx : Heap := fun r =>
  if r = 0 then some (.qarr3 coefs513)
  else if r = 2 then some (.zarr1 [4])
  else none

theorem no_caller_array_mutation_witness :
    heapAfterI (intersectionH heapEx 0 1 [4]) heapEx 0 = heapEx 0 ∧
    heapAfterT (stabilityToThresholdH heapEx 2 1 10) heapEx 0 = heapEx 0 :=
  ⟨(no_caller_array_mutation heapEx 0 2 1 0 [4] 10 (by decide)).1 (by decide),
   (no_caller_array_mutation heapEx 0 2 1 0 [4] 10 (by decide)).2 (by decide)⟩
